import Mathlib

/-!
Verification of the engine-coordination core of the PicoChess UCI engine
module (`uci/engine.py`), shallowly embedded in Lean 4.

The embedding models, from the source:
  * `EngineLease` (engine.py lines 52-103) as an explicit state machine over
    atomic action segments (code between `await` suspension points runs
    atomically under asyncio's cooperative scheduler);
  * the loop body of `ContinuousAnalysis._watching_analyse` (lines 223-264)
    together with its limit short-circuit;
  * the result-delivery skeleton of
    `PlayingContinuousAnalysis.play_move._engine_task` (lines 492-584);
  * the relevant `UciEngine` entry points: `get_analysis` (1192-1206),
    `handle_bestmove_0000` (1391-1428), `newgame` (1248-1273),
    `open_engine` / `reopen_engine` (692-781), `start_analysis` (1139-1170)
    and `go` (1107-1137).
-/

/-! ## EngineLease (engine.py 52-103) -/

/-- The two logical roles that compete for the engine's attention. -/
inductive Role where
  | continuous
  | playing
deriving DecidableEq, Repr

/-- State of an `EngineLease`: the underlying `asyncio.Lock`'s locked bit,
the `_owner` field, the `_requester` field and the `_interrupt_event` flag. -/
structure LeaseState where
  locked : Bool
  owner : Option Role
  requester : Option Role
  interruptSet : Bool
deriving DecidableEq, Repr

/-- `EngineLease.__init__`: unlocked, no owner, no requester, event clear. -/
def initLease : LeaseState :=
  { locked := false, owner := none, requester := none, interruptSet := false }

/-- Atomic action segments of the lease operations.  `acquire` spans two
segments separated by the `await self._lock.acquire()` suspension point:
`acquireStart` is lines 67-73 (idempotence check plus preempt flagging) and
`acquireFinish` is the code after the lock grant (lines 83-85).
`acquireCancel` is the `except` cleanup (lines 77-81) run when the waiting
acquirer is cancelled.  `release` is lines 87-95. -/
inductive LeaseAction where
  | acquireStart (o : Role) (preempt : Bool)
  | acquireFinish (o : Role)
  | acquireCancel (o : Role) (preempt : Bool)
  | release (o : Role)
deriving DecidableEq, Repr

/-- One atomic step of the lease.  An `acquireFinish` while the lock is held
is a no-op: the waiter stays blocked and may be retried later, so traces
over-approximate the real interleavings (safety proved here holds for the
real subset). -/
def leaseStep (s : LeaseState) (a : LeaseAction) : LeaseState :=
  match a with
  | .acquireStart o preempt =>
      if s.owner = some o then s          -- idempotent early return (line 67)
      else if preempt then
        { s with requester := some o, interruptSet := true }  -- lines 70-73
      else s
  | .acquireFinish o =>
      if s.locked then s                   -- still blocked on the lock
      else
        { locked := true, owner := some o, requester := none,
          interruptSet := false }          -- lines 76, 83-85
  | .acquireCancel o preempt =>
      -- lines 77-81: clear the flags only if our own request is still pending
      if preempt ∧ s.requester = some o then
        { s with requester := none, interruptSet := false }
      else s
  | .release o =>
      if s.owner = some o then
        { s with owner := none, interruptSet := false, locked := false }
      else s                               -- defensive no-op (lines 89-90)

/-- Run a trace of lease actions from the initial state. -/
def leaseRun (l : List LeaseAction) : LeaseState :=
  l.foldl leaseStep initLease

/-- Run a trace of lease actions from an arbitrary start state. -/
def leaseRunFrom (s : LeaseState) (l : List LeaseAction) : LeaseState :=
  l.foldl leaseStep s

/-- `EngineLease.interrupt_requested` (lines 97-99). -/
def interrupt_requested (s : LeaseState) (o : Role) : Bool :=
  s.owner == some o && s.interruptSet

/-! ## ContinuousAnalysis (engine.py 180-437) -/

/-- The slice of a `chess.Board` the analyser consults: the canonical
position string (`fen()`) and the terminal-state query `is_game_over()`. -/
structure Game where
  fen : String
  gameOver : Bool
deriving DecidableEq, Repr

/-- State of a `ContinuousAnalysis` instance: the running flag, the target
position `game`, the position being analysed `current_game`, the
limit-reached flag, the two game-generation ids, the depth component of the
configured `Limit` and the stored multipv evaluation (abstracted to the
reported depth of each line; `none` models Python `None`). -/
structure AnalyserState where
  running : Bool
  game : Option Game
  current_game : Option Game
  limit_reached : Bool
  game_id : Nat
  current_game_id : Nat
  limit_depth : Option Nat
  analysis_data : Option (List Nat)
deriving DecidableEq, Repr

/-- `ContinuousAnalysis._game_analysable` (lines 336-342). -/
def game_analysable : Option Game → Bool
  | none => false
  | some g => !g.gameOver

/-- `ContinuousAnalysis.get_fen` (lines 396-398): the fen of the position
being analysed, `""` when none is set. -/
def get_fen (s : AnalyserState) : String :=
  match s.current_game with
  | some g => g.fen
  | none => ""

/-- The fen of the target position `self.game.fen()`; only consulted by the
loop under the `_game_analysable` guard, where the target is present. -/
def target_fen (s : AnalyserState) : String :=
  match s.game with
  | some g => g.fen
  | none => ""

/-- What one iteration of the `_watching_analyse` loop body does:
sleep because there is nothing analysable (lines 230-234), sleep because the
limit was already reached for the still-current position (lines 236-242), or
start an engine analysis call (lines 243-251). -/
inductive WatchAction where
  | sleepNoGame
  | sleepLimit
  | analyse
deriving DecidableEq, Repr

/-- The branch taken by one iteration of `_watching_analyse` (lines 230-251).
The limit short-circuit re-checks the game id and the tracked position
string, not just the flag ("bug fix 13.4.2025", line 236). -/
def watching_classify (s : AnalyserState) : WatchAction :=
  if !game_analysable s.game then .sleepNoGame
  else if s.limit_reached && (s.current_game_id == s.game_id)
          && (get_fen s == target_fen s) then .sleepLimit
  else .analyse

/-- The state update under the lock before `_analyse_forever` is entered
(lines 243-248): snapshot the target, clear the limit flag, adopt the game
id, drop the stored data. -/
def watching_prepare (s : AnalyserState) : AnalyserState :=
  { s with current_game := s.game, limit_reached := false,
           current_game_id := s.game_id, analysis_data := none }

/-- One iteration of the `_watching_analyse` loop body: the branch taken and
the analyser state after the branch's synchronous updates.  The sleep
branches leave the state untouched. -/
def watching_step (s : AnalyserState) : WatchAction × AnalyserState :=
  match watching_classify s with
  | .analyse => (.analyse, watching_prepare s)
  | a => (a, s)

/-- Iterate the loop body `n` times, collecting the branch taken at each
iteration. -/
def watching_trace (s : AnalyserState) : Nat → List WatchAction × AnalyserState
  | 0 => ([], s)
  | n + 1 =>
      let (a, s') := watching_step s
      let (as, s'') := watching_trace s' n
      (a :: as, s'')

/-- The limit test of `_analyse_forever` (lines 298-304): with a configured
`limit` whose `depth` is set (truthy, i.e. nonzero), the flag is raised once
the top line's reported depth reaches it. -/
def limit_depth_reached (limit_depth : Option Nat) (top_depth : Nat) : Bool :=
  match limit_depth with
  | some d => decide (d ≠ 0) && decide (top_depth ≥ d)
  | none => false

/-! ## ContinuousAnalysis.get_analysis and UciEngine.get_analysis -/

/-- The dict returned by the two `get_analysis` functions: the `"info"`
value (`none` models both Python `None` and the empty list of the failure
reply), the `"fen"` value, and the `"game"` value (`none` when the reply
carries no `"game"` key, as in the failure reply of
`UciEngine.get_analysis`). -/
structure AnalysisReply where
  info : Option (List Nat)
  fen : String
  game : Option Nat
deriving DecidableEq, Repr

/-- `ContinuousAnalysis.get_analysis` (lines 400-413): deep copy of the
stored data, the fen it was computed against, and the analyser's current
game id.  (The Python would raise on `current_game = None`; the caller in
`UciEngine.get_analysis` only reaches it when the fen check passed.) -/
def continuous_get_analysis (s : AnalyserState) : AnalysisReply :=
  { info := s.analysis_data, fen := get_fen s, game := some s.current_game_id }

/-- The failure reply of `UciEngine.get_analysis`, line 1197:
`{"info": [], "fen": ""}` with no `"game"` key. -/
def emptyAnalysisReply : AnalysisReply :=
  { info := none, fen := "", game := none }

/-- `UciEngine.get_analysis` (lines 1192-1206): the analyser's stored data is
returned only when the analyser exists, is running, and its tracked fen
equals the queried position's fen; otherwise the empty reply. -/
def uci_get_analysis (analyser : Option AnalyserState) (game : Game) : AnalysisReply :=
  match analyser with
  | some a =>
      if a.running && (get_fen a == game.fen) then continuous_get_analysis a
      else emptyAnalysisReply
  | none => emptyAnalysisReply

/-! ## PlayingContinuousAnalysis.play_move (engine.py 477-586) -/

/-- The slice of a `chess.engine.PlayResult` that `play_move` delivers:
best move, ponder move and the fen the search ran against (moves are
abstracted to their UCI strings; `none` models Python `None`). -/
structure PlayResultM where
  move : Option String
  ponder : Option String
  analysed_fen : String
deriving DecidableEq, Repr

/-- The externally visible effects of `_engine_task`'s `finally` block
(lines 578-584), in program order. -/
inductive PlayEffect where
  | clearWaiting                  -- `self._waiting = False` (line 579)
  | releaseLease                  -- `self.engine_lease.release("playing")` (581)
  | put (r : Option PlayResultM)  -- `await result_queue.put(...)` (line 584)
deriving DecidableEq, Repr

/-- How one run of `_engine_task` (lines 492-584) can end.  `completed`
reaches line 553 with the cancel event's state and the assembled result;
the other constructors are the `except` clauses: cancellation while still
awaiting the lease, cancellation during the engine call, an
`EngineTerminatedError`/`EngineError` (line 570), or any other `Exception`
(line 574).  (The `await result_queue.put` in the `finally` block cannot
itself suspend or fail: the queue is unbounded.) -/
inductive RunScenario where
  | cancelledInAcquire
  | cancelledInSearch
  | engineError
  | unexpectedError
  | completed (cancelRequested : Bool) (res : PlayResultM)
deriving DecidableEq, Repr

/-- The three locals `(should_queue, queue_payload, lease_acquired)` as they
stand on entry to the `finally` block, per scenario.  `should_queue` starts
`False` (line 496) and every path through the `try`/`except` ladder sets it
`True`; `lease_acquired` is `True` exactly when line 500 executed. -/
def engine_task_locals : RunScenario → Bool × Option PlayResultM × Bool
  | .cancelledInAcquire => (true, none, false)
  | .cancelledInSearch => (true, none, true)
  | .engineError => (true, none, true)
  | .unexpectedError => (true, none, true)
  | .completed c res => (true, if c then none else some res, true)

/-- The `finally` block (lines 578-584): clear the waiting flag, release the
lease when it was acquired, then deliver the payload when queueing was
requested. -/
def finally_block (sq : Bool) (payload : Option PlayResultM) (la : Bool) :
    List PlayEffect :=
  [PlayEffect.clearWaiting]
    ++ (if la then [PlayEffect.releaseLease] else [])
    ++ (if sq then [PlayEffect.put payload] else [])

/-- All effects one run of `_engine_task` performs on the waiting flag, the
lease and the result queue, in order. -/
def engine_task_effects (sc : RunScenario) : List PlayEffect :=
  let (sq, payload, la) := engine_task_locals sc
  finally_block sq payload la

/-- Whether the lease was acquired in the given scenario. -/
def lease_was_acquired (sc : RunScenario) : Bool :=
  (engine_task_locals sc).2.2

/-- The payload delivered to the result queue in the given scenario. -/
def queued_payload (sc : RunScenario) : Option PlayResultM :=
  (engine_task_locals sc).2.1

/-- Number of `put` effects (items delivered to the result queue). -/
def countPuts (l : List PlayEffect) : Nat :=
  (l.filter fun e => match e with | .put _ => true | _ => false).length

/-! ## UciEngine.handle_bestmove_0000 (engine.py 1391-1428) -/

/-- Side to move. -/
inductive Color where
  | white
  | black
deriving DecidableEq, Repr

/-- The terminal-state queries `handle_bestmove_0000` makes on the board. -/
structure BoardState where
  turn : Color
  checkmate : Bool
  stalemate : Bool
  insufficient_material : Bool
  seventyfive_moves : Bool
  fivefold_repetition : Bool
deriving DecidableEq, Repr

/-- Outcome of the liveness probe in phase 2 of `handle_bestmove_0000`:
no engine object (line 1416-1417, raising `EngineTerminatedError` which the
handler catches), a ping answered within the timeout, a ping timing out
(`asyncio.TimeoutError`), a terminated/failed engine
(`EngineTerminatedError` / `OSError`), or the `AssertionError` branch
(lines 1425-1428). -/
inductive PingOutcome where
  | engineMissing
  | alive
  | timedOut
  | terminated
  | badState
deriving DecidableEq, Repr

/-- `UciEngine.handle_bestmove_0000` (lines 1391-1428). -/
def handle_bestmove_0000 (b : BoardState) (ping : PingOutcome) : String :=
  if b.checkmate then
    if b.turn = Color.white then "0-1" else "1-0"
  else if b.stalemate || b.insufficient_material
          || b.seventyfive_moves || b.fivefold_repetition then
    "1/2-1/2"
  else
    match ping with
    | .alive => if b.turn = Color.white then "0-1" else "1-0"
    | _ => "*"

/-! ## PlayingContinuousAnalysis bookkeeping and UciEngine.newgame -/

/-- The slice of a `PlayingContinuousAnalysis` the façade's entry points
touch: the game id, the waiting flag, the two events, and whether the
engine transport supports `send_line` (the `hasattr` check in `cancel`). -/
structure PlayingState where
  game_id : Nat
  waiting : Bool
  cancel_event : Bool
  force_event : Bool
  has_send_line : Bool
deriving DecidableEq, Repr

/-- `PlayingContinuousAnalysis.cancel` (lines 601-606): set both events and
send `stop` to the engine when the transport allows it.  Returns the new
state and the lines sent to the engine. -/
def playing_cancel (p : PlayingState) : PlayingState × List String :=
  ({ p with cancel_event := true, force_event := true },
   if p.has_send_line then ["stop"] else [])

/-- `ContinuousAnalysis.set_game_id` (lines 214-217): sets both
`game_id` and `current_game_id`. -/
def analyser_set_game_id (a : AnalyserState) (gid : Nat) : AnalyserState :=
  { a with game_id := gid, current_game_id := gid }

/-- `ContinuousAnalysis.update_game` (lines 415-421): replace the target
position and clear the limit flag, keeping the stored data. -/
def analyser_update_game (a : AnalyserState) (g : Game) : AnalyserState :=
  { a with game := some g, limit_reached := false }

/-- The slice of a `UciEngine` that `newgame` touches. -/
structure UciSessionState where
  engine_loaded : Bool
  game_id : Nat
  analyser : Option AnalyserState
  playing : Option PlayingState
  is_mame : Bool
  engine_name : String
deriving Repr

/-- Python's `needle in hay` substring test for a non-empty needle. -/
def containsSub (hay needle : String) : Bool :=
  (hay.splitOn needle).length ≥ 2

/-- `UciEngine.newgame` (lines 1248-1273): with an engine loaded, bump the
game id, propagate it to both sisters (updating the analyser's target and
cancelling the playing search), and send `ucinewgame` exactly when the
engine family requires it (mame or `"PGN Replay"` in the engine name) and
the `send_ucinewgame` parameter allows it.  Returns the new state and the
lines sent to the engine process.  Without an engine it only logs. -/
def newgame (s : UciSessionState) (g : Game) (send_ucinewgame : Bool) :
    UciSessionState × List String :=
  if s.engine_loaded then
    let gid := s.game_id + 1
    let analyser' :=
      s.analyser.map (fun a => analyser_update_game (analyser_set_game_id a gid) g)
    let pc := match s.playing with
      | some p =>
          let (p', cmds) := playing_cancel { p with game_id := gid }
          (some p', cmds)
      | none => (none, [])
    let cmds := pc.2
      ++ (if (s.is_mame || containsSub s.engine_name "PGN Replay")
              && send_ucinewgame then ["ucinewgame"] else [])
    ({ s with game_id := gid, analyser := analyser', playing := pc.1 }, cmds)
  else
    (s, [])

/-! ## UciEngine.open_engine / reopen_engine (engine.py 692-781) -/

/-- Outcome of `chess.engine.popen_uci`: success (with whether the engine's
`id` dict reports a `"name"`, and that name), or one of the three failure
exceptions the source catches (`OSError`, `TypeError`,
`EngineTerminatedError`).  These `except` clauses are the module's notion of
"the engine process failed to start". -/
inductive PopenOutcome where
  | ok (hasName : Bool) (name : String)
  | osError
  | typeError
  | engineTerminated
deriving DecidableEq, Repr

/-- True for the failure outcomes. -/
def popen_failed : PopenOutcome → Bool
  | .ok _ _ => false
  | _ => true

/-- The lifecycle fields of a `UciEngine` that `open_engine` and
`reopen_engine` set. -/
structure EngineProcState where
  engine_loaded : Bool
  transport : Bool
  engine_name : String
  analyser_present : Bool
  playing_present : Bool
deriving DecidableEq, Repr

/-- `UciEngine.open_engine` (lines 692-737): on success instantiate the two
sisters and record the reported name; on any of the caught exceptions set
`transport = None` and `engine = None` and return normally (the handlers
swallow the exception, lines 726-737). -/
def open_engine (s : EngineProcState) (r : PopenOutcome) : EngineProcState :=
  match r with
  | .ok hasName name =>
      { s with engine_loaded := true, transport := true,
               analyser_present := true, playing_present := true,
               engine_name := if hasName then name else s.engine_name }
  | _ => { s with engine_loaded := false, transport := false }

/-- `UciEngine.loaded_ok` (lines 779-781): `self.engine is not None`. -/
def loaded_ok (s : EngineProcState) : Bool :=
  s.engine_loaded

/-- The effect of the standard `quit` ladder on the lifecycle fields
(`_shutdown_standard_engine` always ends with `transport = None`,
`engine = None`, lines 925-926).  The mame path leaves the fields, but every
branch of `reopen_engine` overwrites them afterwards, so the distinction is
immaterial there. -/
def quit_effect (s : EngineProcState) : EngineProcState :=
  { s with engine_loaded := false, transport := false }

/-- `UciEngine.reopen_engine` (lines 739-781): quit, then re-run the popen;
returns `True` only when the new engine reports a name (line 761-764);
every caught start failure sets `transport = None`, `engine = None` and
falls through to `return False` (line 777) without raising. -/
def reopen_engine (s : EngineProcState) (r : PopenOutcome) :
    Bool × EngineProcState :=
  let s1 := quit_effect s
  match r with
  | .ok hasName name =>
      let s2 := { s1 with engine_loaded := true, transport := true,
                          engine_name := if hasName then name
                                         else s1.engine_name }
      (hasName, s2)
  | _ => (false, { s1 with engine_loaded := false, transport := false })

/-! ## UciEngine.start_analysis (engine.py 1139-1170) -/

/-- `self.analyser and self.analyser.is_running()` (line 1148). -/
def analyser_is_running : Option AnalyserState → Bool
  | some a => a.running
  | none => false

/-- `ContinuousAnalysis.start` (lines 344-363): when not already running,
record the target, clear the limit flag, store the limit's depth component
and mark running (the already-running branch only logs). -/
def analyser_start (a : AnalyserState) (g : Game) (limit_depth : Option Nat) :
    AnalyserState :=
  if a.running then a
  else { a with game := some g, limit_reached := false,
                limit_depth := limit_depth, running := true }

/-- `ContinuousAnalysis.update_limit` (lines 371-376): only effective while
running. -/
def analyser_update_limit (a : AnalyserState) (limit_depth : Option Nat) :
    AnalyserState :=
  if a.running then { a with limit_depth := limit_depth } else a

/-- `UciEngine.start_analysis` (lines 1139-1170), with the `Limit` argument
abstracted to its depth component.  Returns
`(result, started, analyser after the call)` where `result` is the
function's boolean return value (`True` only on the was-already-running,
same-position branch) and `started` records whether
`self.analyser.start(...)` was invoked (line 1164). -/
def start_analysis (engine_loaded : Bool) (analyser : Option AnalyserState)
    (playing : Option PlayingState) (g : Game) (limit_depth : Option Nat) :
    Bool × Bool × Option AnalyserState :=
  match analyser with
  | some a =>
      if a.running then
        let a1 := if limit_depth.isSome && !(limit_depth == a.limit_depth)
                  then analyser_update_limit a limit_depth else a
        if !(g.fen == get_fen a1) then
          (false, false, some (analyser_update_game a1 g))
        else
          (true, false, some a1)
      else if engine_loaded then
        match playing with
        | none => (false, false, some a)
        | some p =>
            if !p.waiting then (false, true, some (analyser_start a g limit_depth))
            else (false, false, some a)
      else (false, false, some a)
  | none =>
      if engine_loaded then
        match playing with
        | none => (false, false, none)
        | some p =>
            -- with `self.analyser = None` the call at line 1164 would fail,
            -- but an engine is only loaded together with its analyser; the
            -- waiting branch never reaches that call
            if !p.waiting then (false, true, none)
            else (false, false, none)
      else (false, false, none)

/-! ## UciEngine.go (engine.py 1107-1137) -/

/-- `UciEngine.go`: with no engine or no playing sister, log and return
without touching the result queue; otherwise delegate to
`play_move`, whose spawned `_engine_task` performs the queue effects.
Returns the effects on the result queue and whether `play_move` was
invoked. -/
def go (engine_loaded : Bool) (playing : Option PlayingState)
    (sc : RunScenario) : List PlayEffect × Bool :=
  if !engine_loaded then ([], false)
  else
    match playing with
    | none => ([], false)
    | some _ => (engine_task_effects sc, true)

/-! ## Helper lemmas -/

theorem leaseStep_locked_iff (s : LeaseState) (a : LeaseAction)
    (h : s.locked = s.owner.isSome) :
    (leaseStep s a).locked = (leaseStep s a).owner.isSome := by
  cases a with
  | acquireStart o preempt =>
      simp only [leaseStep]
      split
      · exact h
      · split <;> exact h
  | acquireFinish o =>
      simp only [leaseStep]
      split
      · exact h
      · rfl
  | acquireCancel o preempt =>
      simp only [leaseStep]
      split
      · exact h
      · exact h
  | release o =>
      simp only [leaseStep]
      split
      · rfl
      · exact h

theorem leaseRunFrom_locked_iff (l : List LeaseAction) (s : LeaseState)
    (h : s.locked = s.owner.isSome) :
    (leaseRunFrom s l).locked = (leaseRunFrom s l).owner.isSome := by
  induction l generalizing s with
  | nil => exact h
  | cons a l ih =>
      exact ih (leaseStep s a) (leaseStep_locked_iff s a h)

/-- Lock-ownership invariant: along every trace, the underlying lock is held
exactly when some role owns the lease. -/
theorem leaseRun_locked_iff (l : List LeaseAction) :
    (leaseRun l).locked = (leaseRun l).owner.isSome :=
  leaseRunFrom_locked_iff l initLease rfl

/-! ## Claim theorems -/

/-- Claim C2: for every sequence of lease acquire/release steps by the
owners "continuous" and "playing", at most one owner holds the lease at any
instant (and the owner field names a holder exactly while the underlying
lock is held), and executing both sides' releases from any reachable state
leaves the lease unheld: owner `None` and the lock unlocked. -/
theorem c2_lease_mutual_exclusion (l : List LeaseAction) :
    ((leaseRun l).locked = (leaseRun l).owner.isSome)
    ∧ (∀ o₁ o₂ : Role, (leaseRun l).owner = some o₁ →
        (leaseRun l).owner = some o₂ → o₁ = o₂)
    ∧ ((leaseStep (leaseStep (leaseRun l)
          (LeaseAction.release Role.continuous))
          (LeaseAction.release Role.playing)).owner = none
       ∧ (leaseStep (leaseStep (leaseRun l)
          (LeaseAction.release Role.continuous))
          (LeaseAction.release Role.playing)).locked = false) := by
  refine ⟨leaseRun_locked_iff l, ?_, ?_⟩
  · intro o₁ o₂ h₁ h₂
    rw [h₁] at h₂
    exact Option.some.inj h₂
  · have hinv := leaseRun_locked_iff l
    cases howner : (leaseRun l).owner with
    | none =>
        have hlock : (leaseRun l).locked = false := by rw [hinv, howner]; rfl
        simp [leaseStep, howner, hlock]
    | some o =>
        cases o <;> simp [leaseStep, howner]

/-- Witness for C2: on a concrete trace in which "continuous" acquired the
lease, the mutual-exclusion conjunct applies with both hypotheses
discharged. -/
theorem c2_witness :
    Role.continuous = Role.continuous
    ∧ (leaseRun [LeaseAction.acquireStart Role.continuous false,
                 LeaseAction.acquireFinish Role.continuous]).owner
        = some Role.continuous :=
  ⟨(c2_lease_mutual_exclusion
      [LeaseAction.acquireStart Role.continuous false,
       LeaseAction.acquireFinish Role.continuous]).2.1
      Role.continuous Role.continuous rfl rfl,
   rfl⟩

theorem c3_step_inv (s : LeaseState) (a : LeaseAction)
    (ha1 : a ≠ LeaseAction.release Role.continuous)
    (ha2 : a ≠ LeaseAction.acquireCancel Role.playing true)
    (h1 : s.owner = some Role.continuous) (h2 : s.interruptSet = true)
    (h3 : s.locked = true) (h4 : s.requester ≠ some Role.continuous) :
    (leaseStep s a).owner = some Role.continuous ∧
    (leaseStep s a).interruptSet = true ∧
    (leaseStep s a).locked = true ∧
    (leaseStep s a).requester ≠ some Role.continuous := by
  cases a with
  | acquireStart o preempt =>
      cases o with
      | continuous => simp [leaseStep, h1, h2, h3, h4]
      | playing =>
          cases preempt with
          | false => simp [leaseStep, h1, h2, h3, h4]
          | true => simp [leaseStep, h1, h2, h3]
  | acquireFinish o => simp [leaseStep, h1, h2, h3, h4]
  | acquireCancel o preempt =>
      cases o with
      | continuous => simp [leaseStep, h1, h2, h3, h4]
      | playing =>
          cases preempt with
          | true => exact absurd rfl ha2
          | false => simp [leaseStep, h1, h2, h3, h4]
  | release o =>
      cases o with
      | continuous => exact absurd rfl ha1
      | playing => simp [leaseStep, h1, h2, h3, h4]

theorem c3_run_inv (suffix : List LeaseAction) (s : LeaseState)
    (hn1 : LeaseAction.release Role.continuous ∉ suffix)
    (hn2 : LeaseAction.acquireCancel Role.playing true ∉ suffix)
    (h1 : s.owner = some Role.continuous) (h2 : s.interruptSet = true)
    (h3 : s.locked = true) (h4 : s.requester ≠ some Role.continuous) :
    (leaseRunFrom s suffix).owner = some Role.continuous ∧
    (leaseRunFrom s suffix).interruptSet = true ∧
    (leaseRunFrom s suffix).locked = true ∧
    (leaseRunFrom s suffix).requester ≠ some Role.continuous := by
  induction suffix generalizing s with
  | nil => exact ⟨h1, h2, h3, h4⟩
  | cons a l ih =>
      have ha1 : a ≠ LeaseAction.release Role.continuous :=
        fun h => hn1 (h ▸ List.mem_cons_self a l)
      have ha2 : a ≠ LeaseAction.acquireCancel Role.playing true :=
        fun h => hn2 (h ▸ List.mem_cons_self a l)
      obtain ⟨g1, g2, g3, g4⟩ := c3_step_inv s a ha1 ha2 h1 h2 h3 h4
      exact ih (leaseStep s a) (fun h => hn1 (List.mem_cons_of_mem a h))
        (fun h => hn2 (List.mem_cons_of_mem a h)) g1 g2 g3 g4

/-- Claim C3: `interrupt_requested(owner)` is true only while `owner` is the
current holder and a preemption has been requested; and if "continuous"
holds the lease and "playing" requests acquisition with `preempt = true`,
then from the moment the preempt request is recorded until "continuous"
releases (and as long as the pending "playing" acquire is not itself
cancelled), `interrupt_requested("continuous")` stays true and "playing"
has not yet acquired — "continuous" can observe the interrupt before
"playing" becomes owner. -/
theorem c3_preemption_visibility :
    (∀ (s : LeaseState) (o : Role),
        interrupt_requested s o = true →
        s.owner = some o ∧ s.interruptSet = true)
    ∧ ∀ (l suffix : List LeaseAction),
        (leaseRun l).owner = some Role.continuous →
        LeaseAction.release Role.continuous ∉ suffix →
        LeaseAction.acquireCancel Role.playing true ∉ suffix →
        interrupt_requested
          (leaseRunFrom
            (leaseStep (leaseRun l) (LeaseAction.acquireStart Role.playing true))
            suffix) Role.continuous = true
        ∧ (leaseRunFrom
            (leaseStep (leaseRun l) (LeaseAction.acquireStart Role.playing true))
            suffix).owner ≠ some Role.playing := by
  constructor
  · intro s o h
    simp only [interrupt_requested, Bool.and_eq_true, beq_iff_eq] at h
    exact h
  · intro l suffix howner hn1 hn2
    have hlock : (leaseRun l).locked = true := by
      rw [leaseRun_locked_iff l, howner]; rfl
    have hstart :
        leaseStep (leaseRun l) (LeaseAction.acquireStart Role.playing true)
          = { leaseRun l with requester := some Role.playing,
                              interruptSet := true } := by
      simp [leaseStep, howner]
    obtain ⟨g1, g2, g3, g4⟩ :=
      c3_run_inv suffix
        (leaseStep (leaseRun l) (LeaseAction.acquireStart Role.playing true))
        hn1 hn2
        (by rw [hstart]; exact howner)
        (by rw [hstart])
        (by rw [hstart]; exact hlock)
        (by rw [hstart]; simp)
    refine ⟨?_, ?_⟩
    · simp [interrupt_requested, g1, g2]
    · rw [g1]
      simp

/-- Witness for C3: concrete trace in which "continuous" acquired the lease,
"playing" then requested preemptive acquisition, and a (blocked) lock grant
attempt by "playing" followed; the interrupt stays visible to
"continuous". -/
theorem c3_witness :
    interrupt_requested
      (leaseRunFrom
        (leaseStep
          (leaseRun [LeaseAction.acquireStart Role.continuous false,
                     LeaseAction.acquireFinish Role.continuous])
          (LeaseAction.acquireStart Role.playing true))
        [LeaseAction.acquireFinish Role.playing]) Role.continuous = true :=
  (c3_preemption_visibility.2
    [LeaseAction.acquireStart Role.continuous false,
     LeaseAction.acquireFinish Role.continuous]
    [LeaseAction.acquireFinish Role.playing]
    rfl (by decide) (by decide)).1

/-- Claim C1: for every way a `play_move` engine task can end — normal
completion, forced completion, cancellation before or after the lease was
acquired, engine termination, or any other error — exactly one item (a
`PlayResult` or `None`) is put onto the result queue, and the waiting flag
is cleared and the lease (when it was acquired) released before that item
is delivered. -/
theorem c1_play_move_single_delivery (sc : RunScenario) :
    countPuts (engine_task_effects sc) = 1
    ∧ engine_task_effects sc =
        PlayEffect.clearWaiting ::
          (if lease_was_acquired sc then
            [PlayEffect.releaseLease, PlayEffect.put (queued_payload sc)]
          else
            [PlayEffect.put (queued_payload sc)]) := by
  cases sc with
  | cancelledInAcquire => exact ⟨rfl, rfl⟩
  | cancelledInSearch => exact ⟨rfl, rfl⟩
  | engineError => exact ⟨rfl, rfl⟩
  | unexpectedError => exact ⟨rfl, rfl⟩
  | completed c res => cases c <;> exact ⟨rfl, rfl⟩

/-- Claim C4: once the configured depth limit has been reached for a fixed
position, every further iteration of the analyser's background loop only
sleeps — the state is unchanged and no engine analysis call is made — for
as long as the tracked position string and the game id still match the
target; and the short-circuit indeed re-checks both: with the flag set but
a changed game id or target position, the loop starts a new engine
analysis call instead. -/
theorem c4_depth_limit_idempotence (s : AnalyserState)
    (hga : game_analysable s.game = true)
    (hlr : s.limit_reached = true)
    (hid : s.current_game_id = s.game_id)
    (hfen : get_fen s = target_fen s) :
    (∀ n : Nat, (∀ a ∈ (watching_trace s n).1, a = WatchAction.sleepLimit)
        ∧ (watching_trace s n).2 = s)
    ∧ (∀ s' : AnalyserState, game_analysable s'.game = true →
        s'.limit_reached = true →
        (s'.current_game_id ≠ s'.game_id ∨ get_fen s' ≠ target_fen s') →
        (watching_step s').1 = WatchAction.analyse) := by
  have hclass : watching_classify s = WatchAction.sleepLimit := by
    simp [watching_classify, hga, hlr, hid, hfen]
  have hstep : watching_step s = (WatchAction.sleepLimit, s) := by
    simp [watching_step, hclass]
  constructor
  · intro n
    induction n with
    | zero => exact ⟨fun a ha => absurd ha (by simp [watching_trace]), rfl⟩
    | succ k ih =>
        obtain ⟨ih1, ih2⟩ := ih
        have hunf : watching_trace s (k + 1)
            = (WatchAction.sleepLimit :: (watching_trace s k).1,
               (watching_trace s k).2) := by
          simp [watching_trace, hstep]
        constructor
        · intro a ha
          rw [hunf] at ha
          rcases List.mem_cons.mp ha with h | h
          · exact h
          · exact ih1 a h
        · rw [hunf]
          exact ih2
  · intro s' h1 h2 h3
    have hclass' : watching_classify s' = WatchAction.analyse := by
      rcases h3 with h | h <;> simp [watching_classify, h1, h2, h]
    simp [watching_step, hclass']

/-- Witness for C4: a concrete analyser state that reached depth limit 10 on
a fixed position sleeps through three further loop iterations unchanged. -/
theorem c4_witness :
    (watching_trace
      { running := true, game := some { fen := "fenA", gameOver := false },
        current_game := some { fen := "fenA", gameOver := false },
        limit_reached := true, game_id := 1, current_game_id := 1,
        limit_depth := some 10, analysis_data := some [10] } 3).2
    = { running := true, game := some { fen := "fenA", gameOver := false },
        current_game := some { fen := "fenA", gameOver := false },
        limit_reached := true, game_id := 1, current_game_id := 1,
        limit_depth := some 10, analysis_data := some [10] } :=
  ((c4_depth_limit_idempotence
    { running := true, game := some { fen := "fenA", gameOver := false },
      current_game := some { fen := "fenA", gameOver := false },
      limit_reached := true, game_id := 1, current_game_id := 1,
      limit_depth := some 10, analysis_data := some [10] }
    rfl rfl rfl rfl).1 3).2

/-- Claim C5: `UciEngine.get_analysis(P)` yields the analyser's stored
evaluation only when the analyser is running and its tracked position
string equals `P`'s fen exactly, and then the reply is the analyser's own
snapshot — labeled with the analyser's tracked fen and its own generation
id, never relabeled; when the analyser has moved to a different position or
is not running (or does not exist), the reply is the empty
`{"info": [], "fen": ""}`. -/
theorem c5_get_analysis_freshness :
    (∀ (an : Option AnalyserState) (P : Game),
        (uci_get_analysis an P).info.isSome = true →
        ∃ a, an = some a ∧ a.running = true ∧ get_fen a = P.fen
          ∧ uci_get_analysis an P = continuous_get_analysis a
          ∧ (uci_get_analysis an P).fen = get_fen a
          ∧ (uci_get_analysis an P).game = some a.current_game_id)
    ∧ (∀ (a : AnalyserState) (P : Game),
        a.running = false ∨ get_fen a ≠ P.fen →
        uci_get_analysis (some a) P = emptyAnalysisReply)
    ∧ (∀ P : Game, uci_get_analysis none P = emptyAnalysisReply) := by
  refine ⟨?_, ?_, fun P => rfl⟩
  · intro an P h
    match an with
    | none => simp [uci_get_analysis, emptyAnalysisReply] at h
    | some a =>
        by_cases hc : (a.running && (get_fen a == P.fen)) = true
        · simp only [Bool.and_eq_true] at hc
          obtain ⟨hr, hf⟩ := hc
          have hc : (a.running && (get_fen a == P.fen)) = true := by
            simp [hr, hf]
          refine ⟨a, rfl, hr, beq_iff_eq.mp hf, ?_, ?_, ?_⟩
            <;> simp [uci_get_analysis, hc, continuous_get_analysis]
        · simp [uci_get_analysis, hc, emptyAnalysisReply] at h
  · intro a P h
    have hc : (a.running && (get_fen a == P.fen)) = false := by
      rcases h with h | h <;> simp [h]
    simp [uci_get_analysis, hc]

/-- Witness for C5: an analyser that is not running yields the empty reply
for a concrete queried position. -/
theorem c5_witness :
    uci_get_analysis
      (some { running := false, game := some { fen := "fenB", gameOver := false },
              current_game := some { fen := "fenB", gameOver := false },
              limit_reached := false, game_id := 2, current_game_id := 2,
              limit_depth := none, analysis_data := some [7] })
      { fen := "fenB", gameOver := false } = emptyAnalysisReply :=
  c5_get_analysis_freshness.2.1
    { running := false, game := some { fen := "fenB", gameOver := false },
      current_game := some { fen := "fenB", gameOver := false },
      limit_reached := false, game_id := 2, current_game_id := 2,
      limit_depth := none, analysis_data := some [7] }
    { fen := "fenB", gameOver := false } (Or.inl rfl)

/-- Claim C6: `handle_bestmove_0000` returns the side to move losing on
checkmate; the draw result on stalemate, insufficient material, the 75-move
rule, or fivefold repetition; on a non-terminal board the resignation
result with the side not to move winning when the engine answers the ping;
and `"*"` (never a resignation) when the engine is absent, the ping times
out, or the engine is terminated. -/
theorem c6_bestmove_0000_classification (b : BoardState) (ping : PingOutcome) :
    (b.checkmate = true →
      handle_bestmove_0000 b ping
        = (if b.turn = Color.white then "0-1" else "1-0"))
    ∧ (b.checkmate = false →
       (b.stalemate = true ∨ b.insufficient_material = true ∨
        b.seventyfive_moves = true ∨ b.fivefold_repetition = true) →
       handle_bestmove_0000 b ping = "1/2-1/2")
    ∧ (b.checkmate = false → b.stalemate = false →
       b.insufficient_material = false → b.seventyfive_moves = false →
       b.fivefold_repetition = false → ping = PingOutcome.alive →
       handle_bestmove_0000 b ping
        = (if b.turn = Color.white then "0-1" else "1-0"))
    ∧ (b.checkmate = false → b.stalemate = false →
       b.insufficient_material = false → b.seventyfive_moves = false →
       b.fivefold_repetition = false →
       (ping = PingOutcome.engineMissing ∨ ping = PingOutcome.timedOut ∨
        ping = PingOutcome.terminated) →
       handle_bestmove_0000 b ping = "*") := by
  refine ⟨?_, ?_, ?_, ?_⟩
  · intro h
    simp [handle_bestmove_0000, h]
  · intro h hdraw
    rcases hdraw with hd | hd | hd | hd <;> simp [handle_bestmove_0000, h, hd]
  · intro h1 h2 h3 h4 h5 hping
    simp [handle_bestmove_0000, h1, h2, h3, h4, h5, hping]
  · intro h1 h2 h3 h4 h5 hping
    rcases hping with hp | hp | hp <;>
      simp [handle_bestmove_0000, h1, h2, h3, h4, h5, hp]

/-- Witness for C6: on a concrete non-terminal board with White to move and
a responsive engine, the result is the resignation "0-1" (Black, the side
not to move, wins); with the ping timing out it is "*". -/
theorem c6_witness :
    handle_bestmove_0000
      { turn := Color.white, checkmate := false, stalemate := false,
        insufficient_material := false, seventyfive_moves := false,
        fivefold_repetition := false } PingOutcome.alive = "0-1"
    ∧ handle_bestmove_0000
      { turn := Color.white, checkmate := false, stalemate := false,
        insufficient_material := false, seventyfive_moves := false,
        fivefold_repetition := false } PingOutcome.timedOut = "*" :=
  ⟨(c6_bestmove_0000_classification
      { turn := Color.white, checkmate := false, stalemate := false,
        insufficient_material := false, seventyfive_moves := false,
        fivefold_repetition := false } PingOutcome.alive).2.2.1
      rfl rfl rfl rfl rfl rfl,
   (c6_bestmove_0000_classification
      { turn := Color.white, checkmate := false, stalemate := false,
        insufficient_material := false, seventyfive_moves := false,
        fivefold_repetition := false } PingOutcome.timedOut).2.2.2
      rfl rfl rfl rfl rfl (Or.inr (Or.inl rfl))⟩

/-- Counterexample for C7 as stated: a `newgame` call on a session with no
engine loaded does not increment the game generation id (it only logs,
engine.py line 1273). -/
theorem c7_counterexample :
    (newgame { engine_loaded := false, game_id := 1, analyser := none,
               playing := none, is_mame := false, engine_name := "NN" }
      { fen := "fen0", gameOver := false } true).1.game_id ≠ 1 + 1 := by
  decide

/-- Claim C7 (amended: when an engine is loaded): `newgame` increments the
game generation id by one, propagates the new id to both sister tasks
before returning, cancels any in-flight playing search, and sends
`ucinewgame` to the engine exactly when the engine family requires it
(mame, or a "PGN Replay" engine) and `send_ucinewgame` is true. -/
theorem c7_newgame_propagation (s : UciSessionState) (g : Game)
    (send_ucinewgame : Bool) (a : AnalyserState) (p : PlayingState)
    (he : s.engine_loaded = true) (ha : s.analyser = some a)
    (hp : s.playing = some p) :
    (newgame s g send_ucinewgame).1.game_id = s.game_id + 1
    ∧ (∃ a', (newgame s g send_ucinewgame).1.analyser = some a'
        ∧ a'.game_id = s.game_id + 1 ∧ a'.current_game_id = s.game_id + 1)
    ∧ (∃ p', (newgame s g send_ucinewgame).1.playing = some p'
        ∧ p'.game_id = s.game_id + 1 ∧ p'.cancel_event = true)
    ∧ ("ucinewgame" ∈ (newgame s g send_ucinewgame).2
        ↔ (s.is_mame = true ∨ containsSub s.engine_name "PGN Replay" = true)
          ∧ send_ucinewgame = true) := by
  refine ⟨?_, ?_, ?_, ?_⟩
  · simp [newgame, he, ha, hp, playing_cancel]
  · exact ⟨analyser_update_game (analyser_set_game_id a (s.game_id + 1)) g,
      by simp [newgame, he, ha, hp, playing_cancel],
      by simp [analyser_update_game, analyser_set_game_id],
      by simp [analyser_update_game, analyser_set_game_id]⟩
  · refine ⟨({ p with game_id := s.game_id + 1, cancel_event := true, force_event := true }), ?_, rfl, rfl⟩
    simp [newgame, he, ha, hp, playing_cancel]
  · by_cases hm : ((s.is_mame || containsSub s.engine_name "PGN Replay")
        && send_ucinewgame) = true
    · have hm' := hm
      simp only [Bool.and_eq_true, Bool.or_eq_true] at hm'
      cases hsl : p.has_send_line <;>
        simp [newgame, he, ha, hp, playing_cancel, hm, hsl, hm']
    · have hm' := hm
      simp only [Bool.and_eq_true, Bool.or_eq_true] at hm'
      cases hsl : p.has_send_line <;>
        simp [newgame, he, ha, hp, playing_cancel, hm, hsl, hm']

/-- Witness for C7: a concrete loaded session at generation 2 moves to
generation 3. -/
theorem c7_witness :
    (newgame
      { engine_loaded := true, game_id := 2,
        analyser := some
          { running := true,
            game := some { fen := "fenC", gameOver := false },
            current_game := some { fen := "fenC", gameOver := false },
            limit_reached := false, game_id := 2, current_game_id := 2,
            limit_depth := none, analysis_data := none },
        playing := some
          { game_id := 2, waiting := true, cancel_event := false,
            force_event := false, has_send_line := true },
        is_mame := false, engine_name := "NN" }
      { fen := "fenD", gameOver := false } true).1.game_id = 2 + 1 :=
  (c7_newgame_propagation
    { engine_loaded := true, game_id := 2,
      analyser := some
        { running := true,
          game := some { fen := "fenC", gameOver := false },
          current_game := some { fen := "fenC", gameOver := false },
          limit_reached := false, game_id := 2, current_game_id := 2,
          limit_depth := none, analysis_data := none },
      playing := some
        { game_id := 2, waiting := true, cancel_event := false,
          force_event := false, has_send_line := true },
      is_mame := false, engine_name := "NN" }
    { fen := "fenD", gameOver := false } true
    { running := true, game := some { fen := "fenC", gameOver := false },
      current_game := some { fen := "fenC", gameOver := false },
      limit_reached := false, game_id := 2, current_game_id := 2,
      limit_depth := none, analysis_data := none }
    { game_id := 2, waiting := true, cancel_event := false,
      force_event := false, has_send_line := true }
    rfl rfl rfl).1

/-- Claim C8: every failure of the engine process to start (any of the
exceptions `open_engine`/`reopen_engine` catch) is reported solely through
the loaded state: `engine` and `transport` are set to `None` so
`loaded_ok()` is false, `reopen_engine` returns `False`, and the handlers
return normally instead of letting the exception cross the module
boundary (both functions are total in the model). -/
theorem c8_start_failure_reporting (s : EngineProcState) (r : PopenOutcome)
    (hf : popen_failed r = true) :
    loaded_ok (open_engine s r) = false
    ∧ (open_engine s r).transport = false
    ∧ (reopen_engine s r).1 = false
    ∧ loaded_ok (reopen_engine s r).2 = false
    ∧ (reopen_engine s r).2.transport = false := by
  cases r with
  | ok hasName name => simp [popen_failed] at hf
  | osError => exact ⟨rfl, rfl, rfl, rfl, rfl⟩
  | typeError => exact ⟨rfl, rfl, rfl, rfl, rfl⟩
  | engineTerminated => exact ⟨rfl, rfl, rfl, rfl, rfl⟩

/-- Witness for C8: a concrete previously loaded session whose restart hits
an OS error reports not-loaded and `False`. -/
theorem c8_witness :
    loaded_ok
      (open_engine
        { engine_loaded := true, transport := true, engine_name := "old",
          analyser_present := true, playing_present := true }
        PopenOutcome.osError) = false :=
  (c8_start_failure_reporting
    { engine_loaded := true, transport := true, engine_name := "old",
      analyser_present := true, playing_present := true }
    PopenOutcome.osError rfl).1

/-- Claim C9: `start_analysis` never starts the continuous analyser while
the playing task is waiting for a move: with the analyser not running and
the playing sister waiting, it returns `False`, does not invoke
`ContinuousAnalysis.start`, and leaves the analyser unchanged. -/
theorem c9_no_start_while_thinking (engine_loaded : Bool)
    (analyser : Option AnalyserState) (p : PlayingState) (g : Game)
    (limit_depth : Option Nat)
    (hnr : analyser_is_running analyser = false)
    (hw : p.waiting = true) :
    (start_analysis engine_loaded analyser (some p) g limit_depth).1 = false
    ∧ (start_analysis engine_loaded analyser (some p) g limit_depth).2.1 = false
    ∧ (start_analysis engine_loaded analyser (some p) g limit_depth).2.2
        = analyser := by
  cases analyser with
  | none => cases engine_loaded <;> simp [start_analysis, hw]
  | some a =>
      simp only [analyser_is_running] at hnr
      cases engine_loaded <;> simp [start_analysis, hnr, hw]

/-- Witness for C9: with a concrete idle analyser and the playing task
waiting, nothing is started and the result is `False`. -/
theorem c9_witness :
    (start_analysis true
      (some { running := false, game := none, current_game := none,
              limit_reached := false, game_id := 1, current_game_id := 1,
              limit_depth := none, analysis_data := none })
      (some { game_id := 1, waiting := true, cancel_event := false,
              force_event := false, has_send_line := true })
      { fen := "fenE", gameOver := false } (some 10)).2.1 = false :=
  (c9_no_start_while_thinking true
    (some { running := false, game := none, current_game := none,
            limit_reached := false, game_id := 1, current_game_id := 1,
            limit_depth := none, analysis_data := none })
    { game_id := 1, waiting := true, cancel_event := false,
      force_event := false, has_send_line := true }
    { fen := "fenE", gameOver := false } (some 10) rfl rfl).2.1

theorem countPuts_engine_task_effects (sc : RunScenario) :
    countPuts (engine_task_effects sc) = 1 := by
  cases sc with
  | cancelledInAcquire => rfl
  | cancelledInSearch => rfl
  | engineError => rfl
  | unexpectedError => rfl
  | completed c res => cases c <;> rfl

/-- Claim C10: when `go` is called with no engine loaded or with the
playing task not initialised, it returns without putting any item on the
result queue (and without invoking `play_move`); once `play_move` is
invoked, the spawned task delivers exactly one item. -/
theorem c10_go_early_return_no_delivery (engine_loaded : Bool)
    (playing : Option PlayingState) (sc : RunScenario)
    (h : engine_loaded = false ∨ playing = none) :
    (go engine_loaded playing sc).1 = []
    ∧ (go engine_loaded playing sc).2 = false
    ∧ ∀ p : PlayingState, countPuts (go true (some p) sc).1 = 1 := by
  refine ⟨?_, ?_, fun p => ?_⟩
  · rcases h with h | h
    · simp [go, h]
    · cases engine_loaded <;> simp [go, h]
  · rcases h with h | h
    · simp [go, h]
    · cases engine_loaded <;> simp [go, h]
  · simpa [go] using countPuts_engine_task_effects sc

/-- Witness for C10: a concrete `go` call with no engine loaded delivers
nothing. -/
theorem c10_witness :
    (go false
      (some { game_id := 1, waiting := false, cancel_event := false,
              force_event := false, has_send_line := true })
      RunScenario.engineError).1 = [] :=
  (c10_go_early_return_no_delivery false
    (some { game_id := 1, waiting := false, cancel_event := false,
            force_event := false, has_send_line := true })
    RunScenario.engineError (Or.inl rfl)).1
